import Mathlib

/-!
Verification of the tag-system module (tag parsing, tag store, cursor) of
PicoPicoScript, shallowly embedded from the C source.

The document text is modelled as `List Char`.  C strings owned by a tag
record are modelled as `Option (List Char)`: `none` models a pointer that
is `NULL` or has been `free`d (the code never re-reads a freed pointer in
the scenarios stated below, so no distinction between the two is needed).
The static globals `cur_file`, `cur_index`, `tag`/`tag_size` are gathered
into an explicit state record `SysState` that every operation threads.

`PROP_MAX` (the per-tag property-slot count) is declared in `tag.h`,
which is not part of the excerpt, and the spec gives no value for it, so
the model takes it as an explicit parameter `propMax`; every statement
that depends on it is proved for all (or all positive) values.
-/

namespace PicoTag

/-- Size limit from the source: `#define TAG_NAME_MAX 128`. -/
def TAG_NAME_MAX : Nat := 128

/-- Size limit from the source: `#define PROP_NAME_MAX 128`. -/
def PROP_NAME_MAX : Nat := 128

/-- Size limit from the source: `#define PROP_VALUE_MAX 4096`. -/
def PROP_VALUE_MAX : Nat := 4096

/-- Size limit from the source: `#define COMMAND_MAX 65536`. -/
def COMMAND_MAX : Nat := 65536

/-- A stored tag record (`struct tag`): its fields are taken from their
uses in the source (`t->tag_name`, `t->prop_count`, `t->prop_name[i]`,
`t->prop_value[i]`, `t->line`).  `none` models a `NULL` or freed string
pointer.  Only the first `prop_count` property slots are ever written, so
the model keeps just those. -/
structure Tag where
  tag_name : Option (List Char)
  prop_count : Nat
  props : List (Option (List Char) × Option (List Char))
  line : Nat
deriving DecidableEq, Repr

/-- The process-wide mutable state of the module: `cur_file` (the saved
file name), `cur_index` (the cursor), and `tag[0 .. tag_size)` (the tag
store, as a list whose length plays the role of `tag_size`). -/
structure SysState where
  cur_file : List Char
  cur_index : Nat
  tags : List Tag
deriving DecidableEq, Repr

/-- The initial values of the static globals (zero-initialized). -/
def sys0 : SysState := ⟨[], 0, []⟩

/-- What `cleanup_tag`'s loop body does to the record at index `i`:
`free(t->tag_name)` (modelled by dropping the string), then the inner
loop over `j` frees `t->prop_name[i]` / `t->prop_value[i]` — the source
indexes the property slots with the outer variable `i`, not `j`, so only
slot `i` of record `i` is cleared (and only when `i` is inside the slot
array, i.e. `i < PROP_MAX`). -/
def clearTag (propMax : Nat) (i : Nat) (t : Tag) : Tag :=
  { t with
    tag_name := none
    props := if i < propMax then t.props.set i (none, none) else t.props }

/-- `cleanup_tag`: resets `cur_index` to 0, empties `cur_file`, and runs
`clearTag` over every stored record.  The source never resets `tag_size`,
so the length of `tags` is unchanged. -/
def cleanup_tag (propMax : Nat) (s : SysState) : SysState :=
  { cur_file := []
    cur_index := 0
    tags := s.tags.mapIdx (fun i t => clearTag propMax i t) }

/-- `init_tag`: just calls `cleanup_tag`. -/
def init_tag (propMax : Nat) (s : SysState) : SysState :=
  cleanup_tag propMax s

/-- Result of `parse_tag_document`: success, or the error message and
line number written through `error_msg` / `error_line`. -/
inductive ParseResult where
  | ok : ParseResult
  | error (msg : String) (line : Nat) : ParseResult
deriving DecidableEq, Repr

/-- The tokenizer states of `parse_tag_document` (`enum state`). -/
inductive TokState where
  | init | tagname | propname | pvQuote | pvBody
deriving DecidableEq, Repr

/-- The local variables of `parse_tag_document` that the loop threads:
the current state, line counter, the buffer currently being filled
(`len` is its length), the terminated `tag_name` buffer, the terminated
`prop_name[prop_count]` row awaiting its value, the completed
(name, value) rows written since the call started (`prop_count` is their
count — the source never resets `prop_count` between tags), and the tag
store mutated through the callback. -/
structure PSt where
  tokSt : TokState
  line : Nat
  buf : List Char
  tagName : List Char
  propName : List Char
  props : List (List Char × List Char)
  store : List Tag
deriving DecidableEq, Repr

/-- The character class accepted for property-name characters
(`a-z A-Z 0-9 - _`). -/
def propNameChar (c : Char) : Bool :=
  (('a' ≤ c) && (c ≤ 'z')) || (('A' ≤ c) && (c ≤ 'Z')) ||
  (('0' ≤ c) && (c ≤ '9')) || (c == '-') || (c == '_')

/-- `parse_tag_callback`: refuses when the table is full
(`tag_size >= COMMAND_MAX`), otherwise appends a record copying the name
and the first `props.length` property rows.  (String duplication failure
is an external resource condition and is not modelled.) -/
def parse_tag_callback (name : List Char) (props : List (List Char × List Char))
    (line : Nat) (store : List Tag) : Bool × List Tag :=
  if COMMAND_MAX ≤ store.length then
    (false, store)
  else
    (true, store ++ [{ tag_name := some name
                       prop_count := props.length
                       props := props.map (fun q => (some q.1, some q.2))
                       line := line }])

/-- Outcome of one iteration of the `while` loop of
`parse_tag_document`: continue with the next character (`cont`),
continue after also consuming the look-ahead character (`contSkip`,
the `top++` inside the escape cases), or leave the loop with a result
(`stop`, the early `return false` paths). -/
inductive StepOut where
  | cont (p : PSt)
  | contSkip (p : PSt)
  | stop (r : ParseResult) (store : List Tag)
deriving DecidableEq, Repr

/-- One iteration of the `while (*top != '\0')` loop of
`parse_tag_document`, branch by branch in source order: `c` is the
character just consumed (`c = *top++`), `ahead` the look-ahead `*top`
(`none` at the end of the document, where `*top` is the terminating
`'\0'`).  Appends past a full buffer (which in C write out of bounds)
are modelled as plain appends, so the model shows the observable
sequence of characters the code produces. -/
def parse_step (propMax : Nat) (c : Char) (ahead : Option Char) (p : PSt) : StepOut :=
  match p.tokSt with
  | .init =>
    if c = '[' then
      .cont { p with tokSt := .tagname, buf := [] }
    else if c = '\n' then
      .cont { p with line := p.line + 1 }
    else if c = ' ' ∨ c = '\r' ∨ c = '\t' then
      .cont p
    else
      .stop (.error "Invalid character." p.line) p.store
  | .tagname =>
    -- the len == 0 whitespace skip comes before the newline count
    if p.buf.length = 0 ∧ (c = ' ' ∨ c = '\r' ∨ c = '\t' ∨ c = '\n') then
      .cont p
    else
      let line' := if c = '\n' then p.line + 1 else p.line
      if c = ' ' ∨ c = '\r' ∨ c = '\t' ∨ c = '\n' then
        .cont { p with tokSt := .propname, line := line', tagName := p.buf, buf := [] }
      else if c = ']' then
        match parse_tag_callback p.buf [] line' p.store with
        | (true, store') =>
          .cont { p with tokSt := .init, line := line', tagName := p.buf, store := store' }
        | (false, store') => .stop (.error "Too many properties." line') store'
      else if TAG_NAME_MAX ≤ p.buf.length then
        .stop (.error "Tag name too long." line') p.store
      else
        .cont { p with line := line', buf := p.buf ++ [c] }
  | .propname =>
    if p.props.length = propMax then
      .stop (.error "Too many properties." p.line) p.store
    else if p.buf.length = 0 ∧ c = ' ' then
      .cont p
    else if p.buf.length = 0 ∧ c = ']' then
      match parse_tag_callback p.tagName p.props p.line p.store with
      | (true, store') => .cont { p with tokSt := .init, store := store' }
      | (false, store') => .stop (.error "Internal error." p.line) store'
    else
      let line' := if p.buf.length = 0 ∧ c = '\n' then p.line + 1 else p.line
      if p.buf.length = 0 ∧ (c = ' ' ∨ c = '\r' ∨ c = '\t' ∨ c = '\n') then
        .cont { p with line := line' }
      else if 0 < p.buf.length ∧ c = '=' then
        .cont { p with tokSt := .pvQuote, line := line', propName := p.buf, buf := [] }
      else if PROP_NAME_MAX ≤ p.buf.length then
        .stop (.error "Property name too long." line') p.store
      else if propNameChar c then
        .cont { p with line := line', buf := p.buf ++ [c] }
      else
        -- the source stores a recoverable "Invalid character." diagnostic
        -- in *error_msg here and continues without aborting
        .cont { p with line := line' }
  | .pvQuote =>
    let line' := if c = '\n' then p.line + 1 else p.line
    if c = ' ' ∨ c = '\r' ∨ c = '\t' ∨ c = '\n' then
      .cont { p with line := line' }
    else if c = '"' then
      .cont { p with tokSt := .pvBody, line := line', buf := [] }
    else
      -- any other character before the opening quote is silently skipped
      .cont { p with line := line' }
  | .pvBody =>
    if c = '\\' then
      -- escape: switch on *top; none of these appends checks PROP_VALUE_MAX
      if ahead = some '"' then .contSkip { p with buf := p.buf ++ ['"'] }
      else if ahead = some 'n' then .contSkip { p with buf := p.buf ++ ['\n'] }
      else if ahead = some '\\' then .contSkip { p with buf := p.buf ++ ['\\'] }
      else
        -- default: the backslash alone is appended, *top is not consumed
        .cont { p with buf := p.buf ++ ['\\'] }
    else if c = '"' then
      .cont { p with tokSt := .propname, props := p.props ++ [(p.propName, p.buf)], buf := [] }
    else if PROP_VALUE_MAX ≤ p.buf.length then
      .stop (.error "Property value too long." p.line) p.store
    else
      .cont { p with buf := p.buf ++ [c] }

/-- What `parse_tag_document` does once the loop has exited: success in
`ST_INIT`, the fatal "Unexpected EOF" in any other state. -/
def parseEnd (p : PSt) : ParseResult × List Tag :=
  if p.tokSt = .init then (.ok, p.store)
  else (.error "Unexpected EOF" p.line, p.store)

/-- The `while (*top != '\0')` loop of `parse_tag_document`: one
`parse_step` per character, until a `stop` or the end of the document. -/
def parseLoop (propMax : Nat) : List Char → PSt → ParseResult × List Tag
  | [], p => parseEnd p
  | c :: rest, p =>
    match parse_step propMax c rest.head? p with
    | .stop r store' => (r, store')
    | .cont p' => parseLoop propMax rest p'
    | .contSkip p' =>
      match rest with
      | [] => parseEnd p'   -- unreachable: the step only skips an existing look-ahead
      | _ :: rest2 => parseLoop propMax rest2 p'

/-- `parse_tag_document`: runs the loop from state `ST_INIT`, line 1,
empty buffers, `prop_count = 0`, over the given document, mutating the
given tag store through `parse_tag_callback`.  (The static name/property
buffers persist across calls in C, but no stale content is observable:
every row the callback reads was terminated during the current call.) -/
def parse_tag_document (propMax : Nat) (doc : List Char) (store : List Tag) :
    ParseResult × List Tag :=
  parseLoop propMax doc
    { tokSt := .init, line := 1, buf := [], tagName := [], propName := [],
      props := [], store := store }

/-- `load_tag_file`.  The external `load_file` collaborator is modelled
by the `content` argument: `none` means the read failed (the function
returns `false` at once, before `cleanup_tag`), `some buf` means it
produced the buffer `buf`.  `strncpy(cur_file, file, sizeof(cur_file)-1)`
keeps at most 1023 characters; the error message and line of a failed
parse are passed to `log_error` and dropped. -/
def load_tag_file (propMax : Nat) (content : Option (List Char)) (file : List Char)
    (s : SysState) : Bool × SysState :=
  match content with
  | none => (false, s)
  | some buf =>
    let s1 := cleanup_tag propMax s
    let s2 := { s1 with cur_file := file.take 1023 }
    match parse_tag_document propMax buf s2.tags with
    | (.ok, tags') => (true, { s2 with tags := tags' })
    | (.error _ _, tags') => (false, { s2 with tags := tags' })

/-- `get_tag_file_name`: returns the saved file name. -/
def get_tag_file_name (s : SysState) : List Char := s.cur_file

/-- `get_tag_line`: `-1` when `cur_index >= tag_size`, otherwise the
line of the record at the cursor. -/
def get_tag_line (s : SysState) : Int :=
  if h : s.tags.length ≤ s.cur_index then -1
  else ((s.tags.get ⟨s.cur_index, Nat.lt_of_not_le h⟩).line : Int)

/-- `get_current_tag`: `NULL` (`none`) when `cur_index >= tag_size`,
otherwise the record at the cursor. -/
def get_current_tag (s : SysState) : Option Tag :=
  if h : s.tags.length ≤ s.cur_index then none
  else some (s.tags.get ⟨s.cur_index, Nat.lt_of_not_le h⟩)

/-- `move_to_next_tag`: unconditionally increments the cursor. -/
def move_to_next_tag (s : SysState) : SysState :=
  { s with cur_index := s.cur_index + 1 }

/-- `move_to_next_tag` applied `n` times. -/
def advanceN (s : SysState) : Nat → SysState
  | 0 => s
  | n + 1 => move_to_next_tag (advanceN s n)

/-! ### General lemmas about the embedding -/

theorem advanceN_cur_index (s : SysState) (n : Nat) :
    (advanceN s n).cur_index = s.cur_index + n := by
  induction n with
  | zero => rfl
  | succ n ih => simp [advanceN, move_to_next_tag, ih]; omega

theorem advanceN_tags (s : SysState) (n : Nat) : (advanceN s n).tags = s.tags := by
  induction n with
  | zero => rfl
  | succ n ih => simp [advanceN, move_to_next_tag, ih]

/-- The tag store carried by a step outcome. -/
def stepStore : StepOut → List Tag
  | .cont p => p.store
  | .contSkip p => p.store
  | .stop _ store' => store'

theorem parse_tag_callback_mono (name : List Char) (props : List (List Char × List Char))
    (line : Nat) (store : List Tag) :
    ∃ l, (parse_tag_callback name props line store).2 = store ++ l := by
  unfold parse_tag_callback
  split
  · exact ⟨[], by simp⟩
  · exact ⟨_, rfl⟩

/-- A single step only ever appends to the tag store. -/
theorem parse_step_store_mono (propMax : Nat) (c : Char) (ahead : Option Char) (p : PSt) :
    ∃ l, stepStore (parse_step propMax c ahead p) = p.store ++ l := by
  obtain ⟨tok, line, buf, tagName, propName, props, store⟩ := p
  have hcb : ∀ (name : List Char) (ps : List (List Char × List Char)) (ln : Nat)
      (b : Bool) (st' : List Tag),
      parse_tag_callback name ps ln store = (b, st') → ∃ l, st' = store ++ l := by
    intro name ps ln b st' h
    obtain ⟨l, hl⟩ := parse_tag_callback_mono name ps ln store
    rw [h] at hl
    exact ⟨l, hl⟩
  cases tok <;> simp only [parse_step] <;> repeat' split
  all_goals simp only [stepStore]
  all_goals first
    | exact ⟨[], (List.append_nil _).symm⟩
    | exact hcb _ _ _ _ _ (by assumption)

/-- The parse loop only ever appends to the tag store (stated with an
explicit length bound to get an induction hypothesis for both the
one-character and the two-character steps). -/
theorem parseLoop_store_mono_aux (propMax : Nat) :
    ∀ (n : Nat) (doc : List Char) (p : PSt), doc.length ≤ n →
      ∃ l, (parseLoop propMax doc p).2 = p.store ++ l := by
  intro n
  induction n with
  | zero =>
    intro doc p hlen
    rw [List.length_eq_zero.mp (Nat.le_zero.mp hlen)]
    exact ⟨[], by simp [parseLoop, parseEnd, apply_ite]⟩
  | succ n ih =>
    intro doc p hlen
    match doc with
    | [] => exact ⟨[], by simp [parseLoop, parseEnd, apply_ite]⟩
    | c :: rest =>
      obtain ⟨l0, hl0⟩ := parse_step_store_mono propMax c rest.head? p
      simp only [parseLoop]
      cases hstep : parse_step propMax c rest.head? p with
      | stop r store' =>
        rw [hstep] at hl0
        exact ⟨l0, hl0⟩
      | cont p' =>
        rw [hstep] at hl0
        simp only [stepStore] at hl0
        obtain ⟨l, hl⟩ := ih rest p' (by simp at hlen; omega)
        exact ⟨l0 ++ l, by rw [hl, hl0, List.append_assoc]⟩
      | contSkip p' =>
        rw [hstep] at hl0
        simp only [stepStore] at hl0
        cases rest with
        | nil => exact ⟨l0, by simp [parseEnd, apply_ite, hl0]⟩
        | cons d rest2 =>
          obtain ⟨l, hl⟩ := ih rest2 p' (by simp at hlen; omega)
          exact ⟨l0 ++ l, by rw [hl, hl0, List.append_assoc]⟩

/-- The parse loop only ever appends to the tag store. -/
theorem parseLoop_store_mono (propMax : Nat) (doc : List Char) (p : PSt) :
    ∃ l, (parseLoop propMax doc p).2 = p.store ++ l :=
  parseLoop_store_mono_aux propMax doc.length doc p le_rfl

/-! ### C10 — cursor reads are total past the end of the store -/

/-- C10: `move_to_next_tag` increments the cursor position with no upper
clamp, and at every position at or past the store length — not only the
position exactly equal to it — `get_current_tag` returns `none` (NULL)
and `get_tag_line` returns `-1`. -/
theorem C10_cursor_reads_total (s t : SysState) (h : t.tags.length ≤ t.cur_index) :
    (move_to_next_tag s).cur_index = s.cur_index + 1 ∧
    get_current_tag t = none ∧ get_tag_line t = -1 :=
  ⟨rfl, by simp [get_current_tag, h], by simp [get_tag_line, h]⟩

/-- Witness for C10 at a cursor position strictly beyond the store length. -/
def c10s : SysState := ⟨[], 5, [⟨some ['a'], 0, [], 1⟩]⟩

theorem C10_cursor_reads_total_witness :
    c10s.tags.length ≤ c10s.cur_index ∧
    ((move_to_next_tag c10s).cur_index = c10s.cur_index + 1 ∧
     get_current_tag c10s = none ∧ get_tag_line c10s = -1) :=
  ⟨by decide, C10_cursor_reads_total c10s c10s (by decide)⟩

/-! ### C9 — end of input outside Init is a fatal EOF error -/

/-- C9: ending the document in any tokenizer state other than `Init`
produces the fatal "Unexpected EOF" error at the last-seen line, ending
in `Init` succeeds, and the unterminated document `[say` fails at its
final line (shown both on one line and after two leading newlines). -/
theorem C9_eof_outside_init_fails (propMax line : Nat) (tok : TokState)
    (buf tagName propName : List Char) (props : List (List Char × List Char))
    (store : List Tag) (h : ¬tok = .init) :
    parseLoop propMax [] ⟨tok, line, buf, tagName, propName, props, store⟩
      = (.error "Unexpected EOF" line, store) ∧
    parseLoop propMax [] ⟨.init, line, buf, tagName, propName, props, store⟩ = (.ok, store) ∧
    parse_tag_document 8 ['[', 's', 'a', 'y'] [] = (.error "Unexpected EOF" 1, []) ∧
    parse_tag_document 8 ['\n', '\n', '[', 's', 'a', 'y'] [] = (.error "Unexpected EOF" 3, []) :=
  ⟨by simp [parseLoop, parseEnd, h], by simp [parseLoop, parseEnd], by decide, by decide⟩

theorem C9_eof_outside_init_fails_witness :
    ¬TokState.tagname = TokState.init ∧
    (parseLoop 8 [] ⟨.tagname, 4, ['s'], [], [], [], []⟩ = (.error "Unexpected EOF" 4, []) ∧
     parseLoop 8 [] ⟨.init, 4, ['s'], [], [], [], []⟩ = (.ok, []) ∧
     parse_tag_document 8 ['[', 's', 'a', 'y'] [] = (.error "Unexpected EOF" 1, []) ∧
     parse_tag_document 8 ['\n', '\n', '[', 's', 'a', 'y'] [] = (.error "Unexpected EOF" 3, [])) :=
  ⟨by decide, C9_eof_outside_init_fails 8 4 .tagname ['s'] [] [] [] [] (by decide)⟩

/-! ### C2 — line counting (refuted: leading newline in a tag is not counted) -/

/-- The document `[\n  a="1"]` from the claim. -/
def c2doc : List Char := ['[', '\n', ' ', ' ', 'a', '=', '"', '1', '"', ']']

/-- C2 (code bug evidence): parsing `[\n  a="1"]` succeeds but reports its
tag event at line 1, not line 2: in the tag-name state the `len == 0`
whitespace skip is checked before the `c == '\n'` line increment, so a
newline consumed right after `[` never increments the line counter (the
property-name state, by contrast, increments before skipping). -/
theorem C2_leading_newline_not_counted :
    parse_tag_document 8 c2doc [] = (.ok, [⟨some ['a', '=', '"', '1', '"'], 0, [], 1⟩]) ∧
    (parse_tag_document 8 c2doc []).2.map (fun t => t.line) = [1] := by decide

/-! ### C1 — replace-on-load (refuted: cleanup_tag never resets tag_size) -/

def c1docA : List Char := ['[', 'a', ']']
def c1docB : List Char := ['[', 'b', ']']
def c1s1 : SysState := (load_tag_file 8 (some c1docA) ['A'] sys0).2

/-- C1 (code bug evidence): loading document A = `[a]` and then
B = `[b]` leaves a store of length 2, not 1: `cleanup_tag` frees the old
strings but never resets `tag_size`, so A's record (name freed, line
number kept) is still in the store below B's record. -/
theorem C1_residue_across_loads :
    (load_tag_file 8 (some c1docA) ['A'] sys0).1 = true ∧
    load_tag_file 8 (some c1docB) ['B'] c1s1
      = (true, ⟨['B'], 0, [⟨none, 0, [], 1⟩, ⟨some ['b'], 0, [], 1⟩]⟩) ∧
    ¬(load_tag_file 8 (some c1docB) ['B'] c1s1).2.tags.length = 1 := by decide

/-! ### C6 — exactly PROP_MAX properties (refuted: the check fires first) -/

/-- The document `[t a="1" b="2"]` from the counterexample. -/
def c6doc : List Char :=
  ['[', 't', ' ', 'a', '=', '"', '1', '"', ' ', 'b', '=', '"', '2', '"', ']']

/-- C6 counterexample: with the property limit instantiated at 2, the tag
`[t a="1" b="2"]` — exactly 2 properties followed by the closing
bracket — does not parse successfully: the load fails with the fatal
"Too many properties." error and no record is stored. -/
theorem C6_counterexample :
    parse_tag_document 2 c6doc [] = (.error "Too many properties." 1, []) ∧
    parse_tag_document 2 ['[', 't', ' ', 'a', '=', '"', '1', '"', ']'] []
      = (.ok, [⟨some ['t'], 1, [(some ['a'], some ['1'])], 1⟩]) := by decide

/-- C6 (amended): once the property count has reached `PROP_MAX`, the
next character processed in the property-name state — whatever it is,
the closing bracket included — fails with the fatal "Too many
properties." error, so a tag parses successfully only with at most
`PROP_MAX - 1` properties (counted cumulatively: the source never resets
`prop_count` between tags). -/
theorem C6_amended_limit_blocks_next_char (propMax line : Nat) (c : Char)
    (rest buf tagName propName : List Char) (props : List (List Char × List Char))
    (store : List Tag) (h : props.length = propMax) :
    parseLoop propMax (c :: rest) ⟨.propname, line, buf, tagName, propName, props, store⟩
      = (.error "Too many properties." line, store) := by
  simp [parseLoop, parse_step, h]

theorem C6_amended_limit_blocks_next_char_witness :
    ([(['a'], ['1']), (['b'], ['2'])] : List (List Char × List Char)).length = 2 ∧
    parseLoop 2 [']'] ⟨.propname, 1, [], ['t'], ['b'], [(['a'], ['1']), (['b'], ['2'])], []⟩
      = (.error "Too many properties." 1, []) :=
  ⟨by decide,
   C6_amended_limit_blocks_next_char 2 1 ']' [] [] ['t'] ['b']
     [(['a'], ['1']), (['b'], ['2'])] [] (by decide)⟩

/-! ### C3 — escape decoding in the property-value body state -/

/-- The document `[t a="a\"b\nc\\d" x="a\xb"]`, carrying both example
values of the claim. -/
def c3doc : List Char :=
  ['[', 't', ' ', 'a', '=', '"', 'a', '\\', '"', 'b', '\\', 'n', 'c', '\\', '\\', 'd', '"',
   ' ', 'x', '=', '"', 'a', '\\', 'x', 'b', '"', ']']

/-- The single record `c3doc` parses to: `a\"b\nc\\d` decodes to
`a"b` + newline + `c\d`, and `a\xb` to the four characters
`a`, `\`, `x`, `b`. -/
def c3rec : Tag :=
  ⟨some ['t'], 2,
   [(some ['a'], some ['a', '"', 'b', '\n', 'c', '\\', 'd']),
    (some ['x'], some ['a', '\\', 'x', 'b'])], 1⟩

/-- C3: in the property-value body state, `\"` appends a literal quote,
`\n` appends a newline, `\\` appends a literal backslash (each consuming
the character after the backslash), and a backslash followed by any
other character appends the backslash alone without consuming that
character — it is processed on the next iteration as an ordinary body
character; the two example values decode as the claim states. -/
theorem C3_escape_decoding (propMax line : Nat) (buf tagName propName : List Char)
    (props : List (List Char × List Char)) (store : List Tag) (rest : List Char) :
    (parseLoop propMax ('\\' :: '"' :: rest) ⟨.pvBody, line, buf, tagName, propName, props, store⟩
       = parseLoop propMax rest ⟨.pvBody, line, buf ++ ['"'], tagName, propName, props, store⟩) ∧
    (parseLoop propMax ('\\' :: 'n' :: rest) ⟨.pvBody, line, buf, tagName, propName, props, store⟩
       = parseLoop propMax rest ⟨.pvBody, line, buf ++ ['\n'], tagName, propName, props, store⟩) ∧
    (parseLoop propMax ('\\' :: '\\' :: rest) ⟨.pvBody, line, buf, tagName, propName, props, store⟩
       = parseLoop propMax rest ⟨.pvBody, line, buf ++ ['\\'], tagName, propName, props, store⟩) ∧
    (∀ x : Char, ¬x = '"' → ¬x = 'n' → ¬x = '\\' →
       parseLoop propMax ('\\' :: x :: rest) ⟨.pvBody, line, buf, tagName, propName, props, store⟩
         = parseLoop propMax (x :: rest)
             ⟨.pvBody, line, buf ++ ['\\'], tagName, propName, props, store⟩) ∧
    parse_tag_document 8 c3doc [] = (.ok, [c3rec]) := by
  refine ⟨?_, ?_, ?_, ?_, by decide⟩
  · simp [parseLoop, parse_step]
  · simp [parseLoop, parse_step]
  · simp [parseLoop, parse_step]
  · intro x hq hn hb
    simp [parseLoop, parse_step, hq, hn, hb]

theorem C3_escape_decoding_witness :
    ¬('x' : Char) = '"' ∧ ¬('x' : Char) = 'n' ∧ ¬('x' : Char) = '\\' ∧
    parseLoop 8 ['\\', 'x'] ⟨.pvBody, 1, ['a'], ['t'], ['p'], [], []⟩
      = parseLoop 8 ['x'] ⟨.pvBody, 1, ['a', '\\'], ['t'], ['p'], [], []⟩ :=
  ⟨by decide, by decide, by decide,
   (C3_escape_decoding 8 1 ['a'] ['t'] ['p'] [] [] []).2.2.2.1 'x'
     (by decide) (by decide) (by decide)⟩

/-! ### C4 — value-length limit (refuted: escapes bypass the check) -/

/-- C4 (code bug evidence): with the value buffer already holding
`PROP_VALUE_MAX` characters, the escape `\n` is appended with no length
check — in C this writes past the 4096-byte static buffer — and closing
the value and the tag right after stores a record whose value has
`PROP_VALUE_MAX + 1` characters, with no "Property value too long."
error; an ordinary (non-escape) character in the same state does raise
that error. -/
theorem C4_escape_bypasses_value_limit (propMax line : Nat)
    (buf tagName propName : List Char) (props : List (List Char × List Char))
    (store : List Tag) (hlen : PROP_VALUE_MAX ≤ buf.length)
    (hprops : ¬props.length + 1 = propMax) (hstore : store.length < COMMAND_MAX) :
    (parseLoop propMax ['\\', 'n', '"', ']'] ⟨.pvBody, line, buf, tagName, propName, props, store⟩
       = (.ok, store ++ [⟨some tagName, props.length + 1,
            (props ++ [(propName, buf ++ ['\n'])]).map (fun q => (some q.1, some q.2)), line⟩])) ∧
    (parseLoop propMax ['a'] ⟨.pvBody, line, buf, tagName, propName, props, store⟩
       = (.error "Property value too long." line, store)) := by
  constructor
  · simp [parseLoop, parse_step, parse_tag_callback, parseEnd, hprops,
      Nat.not_le.mpr hstore]
  · simp [parseLoop, parse_step, hlen]

theorem C4_escape_bypasses_value_limit_witness :
    PROP_VALUE_MAX ≤ (List.replicate 4096 'a').length ∧
    ¬(0 : Nat) + 1 = 8 ∧ (0 : Nat) < COMMAND_MAX ∧
    ((parseLoop 8 ['\\', 'n', '"', ']']
        ⟨.pvBody, 1, List.replicate 4096 'a', ['t'], ['v'], [], []⟩
       = (.ok, [⟨some ['t'], 1,
            [(some ['v'], some (List.replicate 4096 'a' ++ ['\n']))], 1⟩])) ∧
     (parseLoop 8 ['a'] ⟨.pvBody, 1, List.replicate 4096 'a', ['t'], ['v'], [], []⟩
       = (.error "Property value too long." 1, []))) :=
  ⟨by rw [List.length_replicate]; decide, by decide, by decide,
   C4_escape_bypasses_value_limit 8 1 (List.replicate 4096 'a') ['t'] ['v'] [] []
     (by rw [List.length_replicate]; decide) (by decide) (by decide)⟩

/-! ### Loader lemmas shared by the claims about load_tag_file -/

/-- Whenever the file read succeeds, the loader's result state has
cursor 0 (it comes from `cleanup_tag`, and nothing after it touches the
cursor). -/
theorem load_tag_file_some_cur_index (propMax : Nat) (buf file : List Char) (s : SysState) :
    (load_tag_file propMax (some buf) file s).2.cur_index = 0 := by
  simp only [load_tag_file]
  rcases parse_tag_document propMax buf (cleanup_tag propMax s).tags with ⟨res, tags'⟩
  cases res <;> simp [cleanup_tag]

/-- Whenever the file read succeeds, the loader's result store is
whatever the parse left in the store it was given (the cleaned-up
previous store), on success and on failure alike. -/
theorem load_tag_file_some_tags (propMax : Nat) (buf file : List Char) (s : SysState) :
    (load_tag_file propMax (some buf) file s).2.tags
      = (parse_tag_document propMax buf (cleanup_tag propMax s).tags).2 := by
  simp only [load_tag_file]
  rcases parse_tag_document propMax buf (cleanup_tag propMax s).tags with ⟨res, tags'⟩
  cases res <;> simp

/-! ### C7 — cursor reset on every load (refuted: not on read failure) -/

/-- The state used against C7: cursor parked at 3. -/
def c7s : SysState := ⟨['A'], 3, []⟩

/-- C7 counterexample: when the file-read step fails, `load_tag_file`
returns before `cleanup_tag`, so the cursor is not reset: from a state
with cursor 3 the failed call leaves the cursor at 3, not 0, and the
whole state untouched. -/
theorem C7_counterexample :
    load_tag_file 8 none ['B'] c7s = (false, c7s) ∧
    (load_tag_file 8 none ['B'] c7s).2.cur_index = 3 ∧
    ¬(load_tag_file 8 none ['B'] c7s).2.cur_index = 0 := by decide

/-- C7 (amended): `load_tag_file` resets the cursor to 0 (as part of the
store reset) exactly when the file read succeeds — on both parse success
and parse failure; when the file-read step itself fails it returns
`false` at once, resetting nothing. -/
theorem C7_cursor_reset_requires_read (propMax : Nat) (buf file : List Char) (s : SysState) :
    (load_tag_file propMax (some buf) file s).2.cur_index = 0 ∧
    load_tag_file propMax none file s = (false, s) :=
  ⟨load_tag_file_some_cur_index propMax buf file s, rfl⟩

/-! ### C5 — failed load leaves the store empty (refuted) -/

/-- The document `[a][`: one complete tag, then an unterminated one. -/
def c5doc : List Char := ['[', 'a', ']', '[']

/-- C5 counterexample: loading `[a][` fails (unexpected EOF), yet the
store is not empty — it keeps the record for `[a]` emitted before the
error. -/
theorem C5_counterexample :
    (load_tag_file 8 (some c5doc) ['f'] sys0).1 = false ∧
    ¬(load_tag_file 8 (some c5doc) ['f'] sys0).2.tags = [] ∧
    (load_tag_file 8 (some c5doc) ['f'] sys0).2.tags
      = [⟨some ['a'], 0, [], 1⟩] := by decide

/-- C5 (amended): when `load_tag_file` fails after its file read
succeeded, the reset has happened (cursor 0) but the store need not be
empty: it holds the cleaned-up records of the previous document (whose
count `cleanup_tag` never clears) followed by whatever the failed parse
emitted before the error; when the file-read step fails, nothing is
reset and the whole previous state persists. -/
theorem C5_failed_load_keeps_partial_store (propMax : Nat) (buf file : List Char)
    (s : SysState) (h : (load_tag_file propMax (some buf) file s).1 = false) :
    load_tag_file propMax none file s = (false, s) ∧
    (load_tag_file propMax (some buf) file s).2.cur_index = 0 ∧
    ∃ l, (load_tag_file propMax (some buf) file s).2.tags
          = (cleanup_tag propMax s).tags ++ l := by
  refine ⟨rfl, load_tag_file_some_cur_index propMax buf file s, ?_⟩
  rw [load_tag_file_some_tags]
  exact parseLoop_store_mono propMax buf _

/-- The prior state used in the C5 witness: one already-loaded record,
cursor parked at 2. -/
def c5s : SysState := ⟨['A'], 2, [⟨some ['p'], 0, [], 1⟩]⟩

theorem C5_failed_load_keeps_partial_store_witness :
    (load_tag_file 8 (some c5doc) ['f'] c5s).1 = false ∧
    (load_tag_file 8 none ['f'] c5s = (false, c5s) ∧
     (load_tag_file 8 (some c5doc) ['f'] c5s).2.cur_index = 0 ∧
     ∃ l, (load_tag_file 8 (some c5doc) ['f'] c5s).2.tags
           = (cleanup_tag 8 c5s).tags ++ l) :=
  ⟨by decide, C5_failed_load_keeps_partial_store 8 c5doc ['f'] c5s (by decide)⟩

/-! ### C8 — cursor iteration after a successful load -/

/-- C8: after a successful load into the pristine state, the cursor is
at 0, reading after `i` advances returns exactly the `i`-th stored
record (document order), and after as many advances as there are records
`get_current_tag` returns `none` and `get_tag_line` returns `-1`. -/
theorem C8_cursor_iterates_in_order (propMax : Nat) (buf file : List Char) (s' : SysState)
    (h : load_tag_file propMax (some buf) file sys0 = (true, s')) :
    s'.cur_index = 0 ∧
    (∀ i : Nat, get_current_tag (advanceN s' i) = s'.tags[i]?) ∧
    get_current_tag (advanceN s' s'.tags.length) = none ∧
    get_tag_line (advanceN s' s'.tags.length) = -1 := by
  have h0 : s'.cur_index = 0 := by
    have h1 := load_tag_file_some_cur_index propMax buf file sys0
    rw [h] at h1
    exact h1
  refine ⟨h0, ?_, ?_, ?_⟩
  · intro i
    by_cases hi : i < s'.tags.length
    · simp [get_current_tag, advanceN_cur_index, advanceN_tags, h0,
        Nat.not_le.mpr hi, List.getElem?_eq_getElem hi]
    · have hle : s'.tags.length ≤ i := Nat.not_lt.mp hi
      simp [get_current_tag, advanceN_cur_index, advanceN_tags, h0, hle,
        List.getElem?_eq_none hle]
  · simp [get_current_tag, advanceN_cur_index, advanceN_tags, h0]
  · simp [get_tag_line, advanceN_cur_index, advanceN_tags, h0]

/-- The document `[a] [b]` and the state its load produces, for the C8
witness. -/
def c8doc : List Char := ['[', 'a', ']', ' ', '[', 'b', ']']

def c8s : SysState := ⟨['f'], 0, [⟨some ['a'], 0, [], 1⟩, ⟨some ['b'], 0, [], 1⟩]⟩

theorem C8_cursor_iterates_in_order_witness :
    load_tag_file 8 (some c8doc) ['f'] sys0 = (true, c8s) ∧
    (c8s.cur_index = 0 ∧
     (∀ i : Nat, get_current_tag (advanceN c8s i) = c8s.tags[i]?) ∧
     get_current_tag (advanceN c8s c8s.tags.length) = none ∧
     get_tag_line (advanceN c8s c8s.tags.length) = -1) :=
  ⟨by decide, C8_cursor_iterates_in_order 8 c8doc ['f'] c8s (by decide)⟩

end PicoTag
